import Mathlib

/-!
Verification development for the nmc-map-matcher repository.

The Python sources are embedded shallowly:
* coordinates and distances are exact rationals (`ℚ`); the floating-point
  square root `math.sqrt` appearing in the sources is represented by an
  explicit function parameter `sqrtFn : ℚ → ℚ`, since square roots of
  rationals are irrational in general.  No verified property below depends
  on the value of `sqrtFn`, only on where the code applies it.
* Python dictionaries are embedded as association lists in insertion order
  (Python 2 dictionaries are unordered; every place the code iterates a
  dictionary the iteration order is implementation defined, and the list
  order plays that role here).
* object identity (`is`) between nodes and links is embedded as structural
  equality; in graphs produced by `GraphLib.addLink` distinct node and link
  objects carry distinct ids, so the two notions agree.
* `linear.py` and `gps.py` are not part of the sources; `pointDistSq` and
  `getNormSq` are modelled from the specification (section 4.1).
-/

/-- Squared planar norm.  Modelled from the spec: `linear.getNormSq` is not in
the sources; the spec's geometry kernel uses the squared Euclidean norm. -/
def getNormSq (x1 y1 x2 y2 : ℚ) : ℚ :=
  (x2 - x1) ^ 2 + (y2 - y1) ^ 2

/-- Projection of a point onto a segment.  Modelled from the spec:
`linear.pointDistSq` is not in the sources.  Spec section 4.1: project `p`
onto segment `ab`; if the foot of the perpendicular lies within `[0, |ab|]`,
return that foot's parameter and `perpendicular = true`; otherwise clamp to
the nearer endpoint and return `false`; `distSq` is the squared distance from
`p` to the returned foot.  The segment length `norm` is passed in by the
caller (the cached link length).  A degenerate segment (`norm = 0`) clamps to
the origin endpoint.  Returns `(distSq, alongDist, perpendicular)`. -/
def pointDistSq (px py ax ay bx by_ norm : ℚ) : ℚ × ℚ × Bool :=
  if norm = 0 then (getNormSq px py ax ay, 0, false)
  else
    let t := ((px - ax) * (bx - ax) + (py - ay) * (by_ - ay)) / norm
    if 0 ≤ t ∧ t ≤ norm then
      let fx := ax + (bx - ax) * t / norm
      let fy := ay + (by_ - ay) * t / norm
      (getNormSq px py fx fy, t, true)
    else if t < 0 then (getNormSq px py ax ay, 0, false)
    else (getNormSq px py bx by_, norm, false)

/-- `GraphNode` from graph.py: a node with GPS coordinates and projected
planar coordinates in feet.  The `outgoingLinkMap` adjacency of the Python
class lives in the objects it links to; here adjacency is recovered from the
graph's link list (or supplied as a function to the walker). -/
structure GraphNode where
  id : Int
  gpsLat : ℚ
  gpsLng : ℚ
  coordX : ℚ
  coordY : ℚ
deriving DecidableEq, Repr

/-- `GraphLink` from graph.py: a directed link between two nodes.  `distance`
and `uid` are the placeholders filled in by `GraphLib.addLink`. -/
structure GraphLink where
  id : Int
  origNode : GraphNode
  destNode : GraphNode
  distance : ℚ
  uid : Int
deriving DecidableEq, Repr

/-- `GraphLink.isComplementary` from graph.py: true when `otherLink` directly
flows in the opposite direction of this link. -/
def GraphLink.isComplementary (l otherLink : GraphLink) : Bool :=
  otherLink.destNode = l.origNode ∧ otherLink.origNode = l.destNode

/-- `PointOnLink` from graph.py: a specific point on a link.  The Python
constructor admits `link = None` only for problem-report dummy entries, which
no verified claim touches, so `link` is kept total here. -/
structure PointOnLink where
  link : GraphLink
  dist : ℚ
  nonPerpPenalty : Bool
  refDist : ℚ
  pointX : ℚ
  pointY : ℚ
deriving DecidableEq, Repr

/-- `PointOnLink.__init__` from graph.py (lines 92-115): stores the given
fields unchanged and interpolates the projected coordinates along the link;
when the cached link length is zero the local interpolation distance is reset
to `0` and the divisor forced to `1`.  Note that the *stored* `dist` field is
the unmodified argument. -/
def PointOnLink.make (link : GraphLink) (dist : ℚ) (nonPerpPenalty : Bool)
    (refDist : ℚ) : PointOnLink :=
  let d := if link.distance = 0 then 0 else dist
  let norm := if link.distance = 0 then 1 else link.distance
  { link := link
    dist := dist
    nonPerpPenalty := nonPerpPenalty
    refDist := refDist
    pointX := link.origNode.coordX + (link.destNode.coordX - link.origNode.coordX) * d / norm
    pointY := link.origNode.coordY + (link.destNode.coordY - link.origNode.coordY) * d / norm }

/-- Association-list update with Python dictionary semantics: overwrite an
existing key in place, otherwise append at the end. -/
def setAssoc {β : Type} (l : List (Int × β)) (k : Int) (v : β) : List (Int × β) :=
  if (l.lookup k).isSome then
    l.map (fun p => if p.1 = k then (k, v) else p)
  else l ++ [(k, v)]

/-- `GraphLib` from graph.py: the graph container.  `nodeIds` stands for the
key set of `nodeMap` (only membership of node ids is ever queried);
`singlePath` graphs have no node map at all. -/
structure GraphLib where
  singlePath : Bool
  nodeIds : List Int
  links : List (Int × GraphLink)
  prevLinkID : Int
deriving Repr

/-- The values of the link map, in iteration order. -/
def GraphLib.linkValues (g : GraphLib) : List GraphLink :=
  g.links.map (fun p => p.2)

/-- `GraphLib.addLink` from graph.py (lines 151-172): refuses a link whose
origin node is unknown (multigraph mode only), measures the link, assigns the
unique id (`link.id` in multigraph mode, the running counter in single-path
mode) and registers the link.  Returns the updated graph and the updated link
(the Python code mutates the link object in place; the warning path returns
it unmodified). -/
def GraphLib.addLink (g : GraphLib) (sqrtFn : ℚ → ℚ) (link : GraphLink) :
    GraphLib × GraphLink :=
  if ¬g.singlePath ∧ ¬(g.nodeIds.contains link.origNode.id) then (g, link)
  else
    let d := sqrtFn (getNormSq link.origNode.coordX link.origNode.coordY
      link.destNode.coordX link.destNode.coordY)
    if ¬g.singlePath then
      let l2 := { link with distance := d, uid := link.id }
      ({ g with links := setAssoc g.links link.id l2, prevLinkID := link.id }, l2)
    else
      let l2 := { link with distance := d, uid := g.prevLinkID }
      let g2 := { g with links := setAssoc g.links g.prevLinkID l2, prevLinkID := g.prevLinkID + 1 }
      (g2, l2)

/-- Stable insertion of a point into a list ordered by ascending `refDist`.
`list.sort(key = attrgetter('refDist'))` in graph.py is a stable sort on that
key; this insertion sort realizes the same ordering. -/
def insertByRefDist (x : PointOnLink) : List PointOnLink → List PointOnLink
  | [] => [x]
  | y :: ys => if y.refDist ≤ x.refDist then y :: insertByRefDist x ys else x :: y :: ys

/-- Sorting by ascending `refDist` (graph.py line 240). -/
def sortByRefDist : List PointOnLink → List PointOnLink
  | [] => []
  | x :: xs => insertByRefDist x (sortByRefDist xs)

/-- The per-link body of the scan loop of `GraphLib.findPointsOnLinks`
(graph.py lines 197-216): project the query point on the link, retain the
projection when within `radius`, and accept it when within `primaryRadius`
or closer than `secondaryRadius` to some previous point. -/
def linkCandidate (sqrtFn : ℚ → ℚ) (pointX pointY radius primaryRadius secondaryRadius : ℚ)
    (prevPoints : List PointOnLink) (link : GraphLink) : Option PointOnLink :=
  let r := pointDistSq pointX pointY link.origNode.coordX link.origNode.coordY
    link.destNode.coordX link.destNode.coordY link.distance
  if r.1 ≤ radius ^ 2 then
    let pol := PointOnLink.make link r.2.1 (!r.2.2) (sqrtFn r.1)
    if r.1 ≤ primaryRadius ^ 2 then some pol
    else if prevPoints.any (fun prevPoint =>
        getNormSq pol.pointX pol.pointY prevPoint.pointX prevPoint.pointY < secondaryRadius ^ 2) then
      some pol
    else none
  else none

/-- The retained-and-accepted working set `retSet` of
`GraphLib.findPointsOnLinks`, in link iteration order. -/
def retainedCandidates (g : GraphLib) (sqrtFn : ℚ → ℚ)
    (pointX pointY radius primaryRadius secondaryRadius : ℚ)
    (prevPoints : List PointOnLink) : List PointOnLink :=
  g.linkValues.filterMap
    (linkCandidate sqrtFn pointX pointY radius primaryRadius secondaryRadius prevPoints)

/-- The junction-duplicate test of `GraphLib.findPointsOnLinks` (graph.py
lines 218-235): a nonperpendicular match at the start of a link is removed
when the working set also holds a nonperpendicular match at the end of an
immediately upstream link with the same reference distance.  Removing starts
cannot change the set of ends (an end has `dist ≠ 0`, a removed start has
`dist = 0`), so the sequential removal loop of the source is equivalent to
this one-pass test against the original working set. -/
def isJunctionDup (retSet : List PointOnLink) (p : PointOnLink) : Bool :=
  p.nonPerpPenalty && decide (p.dist = 0) &&
    retSet.any (fun e =>
      e.nonPerpPenalty && !(decide (e.dist = 0)) && decide (e.dist = e.link.distance) &&
      decide (e.link.destNode = p.link.origNode) && decide (e.refDist = p.refDist))

/-- `GraphLib.findPointsOnLinks` from graph.py (lines 174-241): scan all
links for retained-and-accepted projections, remove junction duplicates,
sort by ascending `refDist` and keep the closest `limitClosestPoints`. -/
def findPointsOnLinks (g : GraphLib) (sqrtFn : ℚ → ℚ)
    (pointX pointY radius primaryRadius secondaryRadius : ℚ)
    (prevPoints : List PointOnLink) (limitClosestPoints : ℕ) : List PointOnLink :=
  let retSet := retainedCandidates g sqrtFn pointX pointY radius primaryRadius
    secondaryRadius prevPoints
  let kept := retSet.filter (fun p => !(isJunctionDup retSet p))
  (sortByRefDist kept).take limitClosestPoints

/-- The retention and acceptance conditions of spec section 4.2, stated
declaratively: `p` projects from some link within `radius`, and is within
`primaryRadius` or strictly closer than `secondaryRadius` to a previous
point. -/
def AcceptedCand (g : GraphLib) (sqrtFn : ℚ → ℚ)
    (pointX pointY radius primaryRadius secondaryRadius : ℚ)
    (prevPoints : List PointOnLink) (p : PointOnLink) : Prop :=
  ∃ link ∈ g.linkValues,
    (pointDistSq pointX pointY link.origNode.coordX link.origNode.coordY
      link.destNode.coordX link.destNode.coordY link.distance).1 ≤ radius ^ 2 ∧
    p = PointOnLink.make link
      (pointDistSq pointX pointY link.origNode.coordX link.origNode.coordY
        link.destNode.coordX link.destNode.coordY link.distance).2.1
      (!(pointDistSq pointX pointY link.origNode.coordX link.origNode.coordY
        link.destNode.coordX link.destNode.coordY link.distance).2.2)
      (sqrtFn (pointDistSq pointX pointY link.origNode.coordX link.origNode.coordY
        link.destNode.coordX link.destNode.coordY link.distance).1) ∧
    ((pointDistSq pointX pointY link.origNode.coordX link.origNode.coordY
        link.destNode.coordX link.destNode.coordY link.distance).1 ≤ primaryRadius ^ 2 ∨
      ∃ q ∈ prevPoints,
        getNormSq p.pointX p.pointY q.pointX q.pointY < secondaryRadius ^ 2)

/-- Link lengths as produced by `GraphLib.addLink`: nonnegative, and zero
only on a link whose endpoints have coinciding planar coordinates. -/
def LinkLengthsOK (g : GraphLib) : Prop :=
  ∀ l ∈ g.linkValues, 0 ≤ l.distance ∧
    (l.distance = 0 →
      l.origNode.coordX = l.destNode.coordX ∧ l.origNode.coordY = l.destNode.coordY)

/-- Example network: two links meeting at a right angle, used to exercise
the candidate generator.  Link `exL1` runs from `(0,0)` to `(10,0)`, link
`exL2` from `(10,0)` to `(10,10)`. -/
def exNodeA : GraphNode := { id := 1, gpsLat := 0, gpsLng := 0, coordX := 0, coordY := 0 }

/-- Second node of the example network, at `(10, 0)`. -/
def exNodeB : GraphNode := { id := 2, gpsLat := 0, gpsLng := 0, coordX := 10, coordY := 0 }

/-- Third node of the example network, at `(10, 10)`. -/
def exNodeC : GraphNode := { id := 3, gpsLat := 0, gpsLng := 0, coordX := 10, coordY := 10 }

/-- First example link, from `exNodeA` to `exNodeB`, length 10. -/
def exL1 : GraphLink :=
  { id := 101, origNode := exNodeA, destNode := exNodeB, distance := 10, uid := 101 }

/-- Second example link, from `exNodeB` to `exNodeC`, length 10. -/
def exL2 : GraphLink :=
  { id := 102, origNode := exNodeB, destNode := exNodeC, distance := 10, uid := 102 }

/-- The example graph holding `exL1` and `exL2`. -/
def exGraph : GraphLib :=
  { singlePath := false, nodeIds := [1, 2, 3], links := [(101, exL1), (102, exL2)], prevLinkID := 102 }

/-- A stand-in for `math.sqrt` in concrete computations.  The verified
properties involving it compare reference distances of candidates carrying
equal squared distances, so only `sqrtFn`'s functionality — equal arguments
give equal values — is relevant, which holds for every function. -/
def exSqrt : ℚ → ℚ := fun q => q

/-- The nonperpendicular candidate at the tail of `exL1` produced for the
query point `(11, -1)`: squared distance `2`, along-link distance `10`. -/
def exTailPoint : PointOnLink :=
  { link := exL1, dist := 10, nonPerpPenalty := true, refDist := 2, pointX := 10, pointY := 0 }

/-- The nonperpendicular candidate at the head of `exL2` produced for the
query point `(11, -1)`: squared distance `2`, along-link distance `0`. -/
def exHeadPoint : PointOnLink :=
  { link := exL2, dist := 0, nonPerpPenalty := true, refDist := 2, pointX := 10, pointY := 0 }

/-- Configuration of `WalkPathProcessor` (graph.py lines 261-293), fixed for
the processor's life.  `score` and `exceeds` stand for the path engine's
`scoreFunction` and `exceedsPreviousCosts` callables (path_engine.py is not
among the sources; the walker only invokes them).  `adj` yields the outgoing
links of a node, standing for the `outgoingLinkMap` reference held by each
node object; `limitRadiusSq` is the precomputed square of `limitRadius`
(the float-overflow guard of line 277 is immaterial over `ℚ`).
`limitRadiusRev` is stored but never read, as in the source. -/
structure WalkCtx where
  score : PointOnLink → ℚ → Option PointOnLink → ℚ
  exceeds : ℚ → Bool
  allowUTurns : Bool
  limitSteps : ℕ
  limitRadiusSq : ℚ
  limitDistance : ℚ
  limitRadiusRev : ℚ
  adj : GraphNode → List GraphLink

/-- A queued traversal of `_WalkPathNext` (graph.py lines 295-365).  The
`prevStruct` back-pointer chain is embedded as `prevChain`, the list of the
previous frames' incoming links, most recent first. -/
structure WalkFrame where
  incomingLink : GraphLink
  prevChain : List GraphLink
  distance : ℚ
  cost : ℚ
  stepCount : ℕ
  backtrackSet : List Int
deriving Repr

/-- `_WalkPathNext.__init__` (graph.py lines 315-365): first-time frames
start at the origin's link with the remaining length of that link; expansion
frames extend the previous frame by the incoming link's length.  Hitting the
destination link subtracts the untraversed part of that link and scores with
the destination-aware score.  `startupCost` is `0` at both construction sites
in the source.  The backtrack set is extended only when the incoming link is
new (the copy-on-write of the source is identity of contents here). -/
def mkWalkFrame (ctx : WalkCtx) (orig dest : PointOnLink) (prev : Option WalkFrame)
    (incomingLink : GraphLink) : WalkFrame :=
  let baseDistance := match prev with
    | none => orig.link.distance - orig.dist
    | some p => p.distance + incomingLink.distance
  let stepCount : ℕ := match prev with
    | none => 0
    | some p => p.stepCount + 1
  let distance := if incomingLink = dest.link then
      baseDistance - (dest.link.distance - dest.dist)
    else baseDistance
  let cost := if incomingLink = dest.link then ctx.score orig distance (some dest)
    else ctx.score orig distance none
  let oldSet : List Int := match prev with
    | none => []
    | some p => p.backtrackSet
  let newSet := if incomingLink.uid ∈ oldSet then oldSet else incomingLink.uid :: oldSet
  let prevChain : List GraphLink := match prev with
    | none => []
    | some p => p.incomingLink :: p.prevChain
  ⟨incomingLink, prevChain, distance, cost, stepCount, newSet⟩

/-- The winner's back-cache recording loop (graph.py lines 459-467): walk the
parent chain, mapping each parent's incoming link uid to the link taken from
it, stopping early at an entry already recording that same link. -/
def cacheWrite : List (Int × GraphLink) → List GraphLink → List (Int × GraphLink)
  | m, l1 :: l0 :: rest =>
    if m.lookup l0.uid = some l1 then m
    else cacheWrite (setAssoc m l0.uid l1) (l0 :: rest)
  | m, [] => m
  | m, [_] => m

/-- The mutable state of one `walkPath` run: the winning frame, the running
distance bound `backtrackScore`, the persistent two-level back-cache and the
FIFO processing queue. -/
structure WalkState where
  winner : Option WalkFrame
  backtrackScore : ℚ
  backCache : List (Int × List (Int × GraphLink))
  queue : List WalkFrame

/-- `WalkPathProcessor._walkPath` (graph.py lines 431-495): drop the frame on
the step, distance or cost bound; on reaching the destination link record the
winner, tighten the distance bound and log the path tail into the back-cache;
otherwise expand either the single cached shortcut link or the node's
outgoing links, filtering U-turns (when disallowed) and backtracking. -/
def walkStep (ctx : WalkCtx) (orig dest : PointOnLink) (f : WalkFrame)
    (st : WalkState) : WalkState :=
  if ctx.limitSteps ≤ f.stepCount then st
  else if st.backtrackScore ≤ f.distance then st
  else if ctx.exceeds f.cost then st
  else if f.incomingLink = dest.link then
    let cache1 := if (st.backCache.lookup dest.link.uid).isSome then st.backCache
      else setAssoc st.backCache dest.link.uid []
    let m := (cache1.lookup dest.link.uid).getD []
    let cache2 := setAssoc cache1 dest.link.uid (cacheWrite m f.prevChain)
    { st with winner := some f, backtrackScore := f.distance, backCache := cache2 }
  else
    let myList := match (st.backCache.lookup dest.link.uid).bind
        (fun m => m.lookup f.incomingLink.uid) with
      | some nextLink => [nextLink]
      | none => ctx.adj f.incomingLink.destNode
    let newFrames := myList.filterMap (fun link =>
      if !ctx.allowUTurns && f.incomingLink.isComplementary link then none
      else if link.uid ∈ f.backtrackSet then none
      else some (mkWalkFrame ctx orig dest (some f) link))
    { st with queue := st.queue ++ newFrames }

/-- The breadth-first queue drain of `walkPath` (graph.py lines 405-406),
with explicit fuel (the Python loop terminates because the backtrack sets and
the step bound exhaust the finite graph; any sufficiently large fuel yields
the same result). -/
def walkLoop (ctx : WalkCtx) (orig dest : PointOnLink) : ℕ → WalkState → WalkState
  | 0, st => st
  | fuel + 1, st =>
    match st.queue with
    | [] => st
    | f :: rest => walkLoop ctx orig dest fuel (walkStep ctx orig dest f { st with queue := rest })

/-- The returned traversal list (graph.py lines 417-424): every link of the
winner's chain except the initial one, in forward order. -/
def WalkFrame.retList (f : WalkFrame) : List GraphLink :=
  ((f.incomingLink :: f.prevChain).dropLast).reverse

/-- `WalkPathProcessor.walkPath` (graph.py lines 367-428): give up immediately
when origin and destination are farther apart than `limitRadius`; otherwise
run the breadth-first search seeded with the origin's link and return the
winner's traversal, distance and cost (or `none`), together with the updated
persistent back-cache. -/
def walkPath (ctx : WalkCtx) (cache0 : List (Int × List (Int × GraphLink)))
    (fuel : ℕ) (orig dest : PointOnLink) :
    (Option (List GraphLink) × ℚ × ℚ) × List (Int × List (Int × GraphLink)) :=
  if ctx.limitRadiusSq < getNormSq dest.pointX dest.pointY orig.pointX orig.pointY then
    ((none, 0, 0), cache0)
  else
    let st0 : WalkState := ⟨none, ctx.limitDistance, cache0, [mkWalkFrame ctx orig dest none orig.link]⟩
    let st := walkLoop ctx orig dest fuel st0
    match st.winner with
    | some w => ((some w.retList, w.distance, w.cost), st.backCache)
    | none => ((none, 0, 0), st.backCache)

/-- Outgoing adjacency of the example network, derived from its link list. -/
def exAdj : GraphNode → List GraphLink :=
  fun n => exGraph.linkValues.filter (fun l => decide (l.origNode = n))

/-- A concrete walker configuration over the example network, with the
distance itself as score and no concurrent-cost pruning. -/
def exWalkCtx : WalkCtx :=
  { score := fun _ d _ => d
    exceeds := fun _ => false
    allowUTurns := true
    limitSteps := 12
    limitRadiusSq := 640000
    limitDistance := 1000
    limitRadiusRev := 800
    adj := exAdj }

/-- A point two feet along `exL1`. -/
def exOrigPoint : PointOnLink :=
  { link := exL1, dist := 2, nonPerpPenalty := false, refDist := 0, pointX := 2, pointY := 0 }

/-- A point seven feet along `exL1`. -/
def exDestPoint : PointOnLink :=
  { link := exL1, dist := 7, nonPerpPenalty := false, refDist := 0, pointX := 7, pointY := 0 }

/-- A zero-length example link exercising the degenerate interpolation branch
of the `PointOnLink` constructor. -/
def zeroLenLink : GraphLink :=
  { id := 7
    origNode := { id := 1, gpsLat := 0, gpsLng := 0, coordX := 3, coordY := 4 }
    destNode := { id := 2, gpsLat := 0, gpsLng := 0, coordX := 8, coordY := 9 }
    distance := 0
    uid := 7 }

/-- `PathEnd` as used by transit_gtfs.py and avl_distances.py.  The class
lives in path_engine.py, which is not among the sources; the fields here are
the ones the embedded code reads, per the data-model table of the spec
(back-pointer and shape-entry bookkeeping that no verified claim touches are
omitted). -/
structure PathEnd where
  pointOnLink : PointOnLink
  restart : Bool
  routeInfo : List GraphLink
  totalDist : ℚ
  totalCost : ℚ
deriving DecidableEq, Repr

/-- `StopRecord` from `dumpBusRouteLinks` (transit_gtfs.py lines 558-575):
link-vote counts, per-link presence counts across trips, per-trip referent
indices into that trip's result list, and the total referent count. -/
structure StopRecord where
  linkCounts : List (Int × ℕ)
  linkPresentCnt : List (Int × ℕ)
  referents : List (Int × List ℕ)
  refCount : ℕ
deriving Repr

/-- The link-uid set of one trip's subnet (transit_gtfs.py lines 610-614). -/
def subsetLinkUids (g : GraphLib) : List Int :=
  g.linkValues.map (fun l => l.uid)

/-- The presence-count loop (transit_gtfs.py lines 617-623): for every trip
referring to the stop, bump the count of every candidate link present in that
trip's subnet.  A trip id missing from `allSubsets` cannot occur on inputs
produced by the matching stage and is skipped. -/
def presenceCount (allSubsets : List (Int × GraphLib)) (rec : StopRecord) : StopRecord :=
  let counted := rec.referents.foldl (fun cnts tripRef =>
    match allSubsets.lookup tripRef.1 with
    | some subset =>
      cnts.map (fun kv => if kv.1 ∈ subsetLinkUids subset then (kv.1, kv.2 + 1) else kv)
    | none => cnts) rec.linkPresentCnt
  { rec with linkPresentCnt := counted }

/-- Ascending lexicographic order on the reconciler's sort triples
`(presence count, vote count, link uid)`, as Python tuple comparison. -/
def tripleLe (a b : ℕ × ℕ × Int) : Bool :=
  decide (a.1 < b.1) ||
    (decide (a.1 = b.1) &&
      (decide (a.2.1 < b.2.1) || (decide (a.2.1 = b.2.1) && decide (a.2.2 ≤ b.2.2))))

/-- Insertion into a list sorted by `tripleLe`. -/
def insertTriple (x : ℕ × ℕ × Int) : List (ℕ × ℕ × Int) → List (ℕ × ℕ × Int)
  | [] => [x]
  | y :: ys => if tripleLe y x then y :: insertTriple x ys else x :: y :: ys

/-- `sorted(sortList)` of transit_gtfs.py line 635. -/
def sortTriples : List (ℕ × ℕ × Int) → List (ℕ × ℕ × Int)
  | [] => []
  | x :: xs => insertTriple x (sortTriples xs)

/-- The sort-list construction of transit_gtfs.py lines 630-635: one triple
per candidate link; the vote count is looked up in `linkCounts`, whose key
set equals that of `linkPresentCnt` by construction (lines 592-594). -/
def buildSortList (rec : StopRecord) : List (ℕ × ℕ × Int) :=
  sortTriples (rec.linkPresentCnt.map (fun kv =>
    (kv.2, (rec.linkCounts.lookup kv.1).getD 0, kv.1)))

/-- The per-tail-link referent scan of transit_gtfs.py lines 639-659.  The
true branch of line 646 evaluates the name `subsetLinks` on line 647; that
local was deleted on line 624 (`del stopRecord, subsetLinks`), so reaching it
raises `UnboundLocalError`, embedded here as `Except.error`.  The false
branch counts the referent as already assigned.  An out-of-range referent
index cannot occur on inputs produced by the matching stage. -/
def voteScan (allResultTrees : List (Int × List PathEnd))
    (referents : List (Int × List ℕ)) (tailUid : Int) (count : ℕ) : Except String ℕ :=
  referents.foldlM (fun c tripRef =>
    tripRef.2.foldlM (fun c2 idx =>
      match ((allResultTrees.lookup tripRef.1).getD [])[idx]? with
      | some entry =>
        if entry.pointOnLink.link.uid ≠ tailUid then
          Except.error "UnboundLocalError: subsetLinks, deleted at line 624, is read at line 647"
        else Except.ok (c2 + 1)
      | none => Except.ok c2) c) count

/-- The while loop of transit_gtfs.py lines 638-663: try the most popular
remaining link until every referent is covered or the sort list is empty.
The fuel argument is a modelling device; `reconcileStops` passes one more
than the sort-list length, which the loop can never exhaust since each
round drops the last triple. -/
def voteLoop (allResultTrees : List (Int × List PathEnd))
    (referents : List (Int × List ℕ)) (refCount : ℕ) :
    ℕ → List (ℕ × ℕ × Int) → ℕ → Except String ℕ
  | 0, _, count => Except.ok count
  | fuel + 1, sortList, count =>
    if sortList.isEmpty ∨ ¬(count < refCount) then Except.ok count
    else
      match sortList.getLast? with
      | none => Except.ok count
      | some t =>
        (voteScan allResultTrees referents t.2.2 count).bind
          (voteLoop allResultTrees referents refCount fuel sortList.dropLast)

/-- The cross-trip stop reconciliation pass of `dumpBusRouteLinks`
(transit_gtfs.py lines 607-664): count per-subnet link presence, then for
every stop with more than one distinct link vote run the reassignment loop.
Stops whose referents all vote for one link are skipped (line 628). -/
def reconcileStops (stopRecords : List (Int × StopRecord))
    (allResultTrees : List (Int × List PathEnd))
    (allSubsets : List (Int × GraphLib)) : Except String Unit :=
  stopRecords.foldlM (fun _ sr =>
    let rec2 := presenceCount allSubsets sr.2
    if rec2.linkCounts.length ≤ 1 then Except.ok ()
    else
      let sortList := buildSortList rec2
      (voteLoop allResultTrees rec2.referents rec2.refCount (sortList.length + 1)
        sortList 0).map (fun _ => ())) ()

/-- The per-referent reassignment step of the reconciler (transit_gtfs.py
lines 645-659), the body the loop above was meant to run.  Modelled from the
spec in one respect: the membership test of line 647 reads the deleted name
`subsetLinks` (see `voteScan`); spec section 4.6 step 4 prescribes testing
the tail link against the trip's subnet, which for a single-path subset
(whose link map is keyed by uid) is a successful lookup of the tail uid, the
same lookup line 651 then uses to fetch the link.  On a reassignment the
entry is flagged `restart`, its point is moved to the tail link with
`dist = -1`, and the following entry (when one exists) is flagged `restart`;
the counter is bumped on reassignment and on an already-matching entry.
`reassignedEntry` is the entry rewrite of lines 650-652. -/
def reassignedEntry (entry : PathEnd) (l : GraphLink) : PathEnd :=
  { entry with restart := true, pointOnLink := { entry.pointOnLink with link := l, dist := -1 } }

/-- Marking an entry for the refine pass (transit_gtfs.py line 654). -/
def restartMarked (entry : PathEnd) : PathEnd :=
  { entry with restart := true }

/-- The reassignment-step loop body of transit_gtfs.py lines 645-659; see
the comment on `reassignedEntry` above. -/
def reassignReferent (subset : GraphLib) (tailUid : Int) (resultTree : List PathEnd)
    (treeEntryIndex : ℕ) (count : ℕ) : List PathEnd × ℕ :=
  match resultTree[treeEntryIndex]? with
  | none => (resultTree, count)
  | some entry =>
    if entry.pointOnLink.link.uid ≠ tailUid then
      match subset.links.lookup tailUid with
      | some l =>
        let tree2 := resultTree.set treeEntryIndex (reassignedEntry entry l)
        let tree3 :=
          if treeEntryIndex + 1 < tree2.length then
            match tree2[treeEntryIndex + 1]? with
            | some nxt => tree2.set (treeEntryIndex + 1) (restartMarked nxt)
            | none => tree2
          else tree2
        (tree3, count + 1)
      | none => (resultTree, count)
    else (resultTree, count + 1)

/-- A plain link with the given id and uid, spanning the example nodes. -/
def mkPlainLink (ident : Int) (uid : Int) : GraphLink :=
  { id := ident, origNode := exNodeA, destNode := exNodeB, distance := 10, uid := uid }

/-- A plain `PathEnd` whose chosen point sits on the given link. -/
def mkPlainPathEnd (l : GraphLink) : PathEnd :=
  { pointOnLink := { link := l, dist := 3, nonPerpPenalty := false, refDist := 0, pointX := 3, pointY := 0 }
    restart := false, routeInfo := [l], totalDist := 0, totalCost := 0 }

/-- A stop voted onto two different links (uids 201 and 202) by two trips. -/
def c1Stop : StopRecord :=
  { linkCounts := [(201, 1), (202, 1)]
    linkPresentCnt := [(201, 0), (202, 0)]
    referents := [(10, [1]), (20, [1])]
    refCount := 2 }

/-- Result trees of the two trips: trip 10 matched the stop to link uid 201,
trip 20 to link uid 202, each at referent index 1 between the dummy ends. -/
def c1Trees : List (Int × List PathEnd) :=
  [(10, [mkPlainPathEnd (mkPlainLink 1 201), mkPlainPathEnd (mkPlainLink 1 201),
    mkPlainPathEnd (mkPlainLink 1 201)]),
   (20, [mkPlainPathEnd (mkPlainLink 2 202), mkPlainPathEnd (mkPlainLink 2 202),
    mkPlainPathEnd (mkPlainLink 2 202)])]

/-- Single-path subnets of the two trips: trip 10 holds uid 201, trip 20
holds uid 202. -/
def c1Subsets : List (Int × GraphLib) :=
  [(10, ⟨true, [], [(201, mkPlainLink 1 201)], 202⟩),
   (20, ⟨true, [], [(202, mkPlainLink 2 202)], 203⟩)]

/-- A fresh node object carrying the fields of the given node, as built by
`buildSubset` (transit_gtfs.py lines 261-262 and 273-274: a new `GraphNode`
from id and GPS coordinates, with the planar coordinates copied over). -/
def copyNode (n : GraphNode) : GraphNode :=
  { id := n.id, gpsLat := n.gpsLat, gpsLng := n.gpsLng, coordX := n.coordX, coordY := n.coordY }

/-- The loop state of `buildSubset`: the subset under construction, the
output link list, the trailing node object and the Python local `prevLinkID`
(the id the next created link will carry). -/
structure BuildState where
  subset : GraphLib
  outLinkList : List GraphLink
  subsetNodePrior : GraphNode
  prevLinkID : Int

/-- The inner loop body of `buildSubset` (transit_gtfs.py lines 251-270):
skip a link missing from the network (with a warning), else create a fresh
node for the original link's origin, add a link carrying the *previous*
link's id from the prior node to it, and remember this link's id. -/
def processLink (vistaNetwork : GraphLib) (sqrtFn : ℚ → ℚ) (st : BuildState)
    (link : GraphLink) : BuildState :=
  match vistaNetwork.links.lookup link.id with
  | none => st
  | some origVistaLink =>
    let subsetNode := copyNode origVistaLink.origNode
    let addRes := st.subset.addLink sqrtFn ⟨st.prevLinkID, st.subsetNodePrior, subsetNode, 0, -1⟩
    ⟨addRes.1, st.outLinkList ++ [addRes.2], subsetNode, link.id⟩

/-- The outer loop body of `buildSubset` (transit_gtfs.py lines 244-270):
skip a node with no route links, or one repeating the first link while the
output holds exactly one link; otherwise process each route link. -/
def processNode (vistaNetwork : GraphLib) (sqrtFn : ℚ → ℚ) (firstLinkID : Int)
    (st : BuildState) (node : PathEnd) : BuildState :=
  match node.routeInfo with
  | [] => st
  | r0 :: rs =>
    if st.outLinkList.length = 1 ∧ r0.id = firstLinkID then st
    else (r0 :: rs).foldl (processLink vistaNetwork sqrtFn) st

/-- `buildSubset` from transit_gtfs.py (lines 220-279): recreate the trip's
path as a fresh single-path network.  The Python function indexes
`treeNodes[0]` and `treeNodes[-1]`, so the nonempty input list is passed as
head and tail.  The final link from the trailing node to a copy of the last
chosen link's destination closes the path (lines 272-277). -/
def buildSubset (sqrtFn : ℚ → ℚ) (vistaNetwork : GraphLib) (first : PathEnd)
    (rest : List PathEnd) : GraphLib × List GraphLink :=
  let a := first.pointOnLink.link.id
  let subset0 : GraphLib := ⟨true, [], [], 0⟩
  let st0 : BuildState := ⟨subset0, [], copyNode first.pointOnLink.link.origNode, a⟩
  let st := (first :: rest).foldl (processNode vistaNetwork sqrtFn a) st0
  let lastNode := (first :: rest).getLast (List.cons_ne_nil first rest)
  let lastSubsetNode := copyNode lastNode.pointOnLink.link.destNode
  let addRes := st.subset.addLink sqrtFn ⟨st.prevLinkID, st.subsetNodePrior, lastSubsetNode, 0, -1⟩
  (addRes.1, st.outLinkList ++ [addRes.2])

/-- The ids of the route links a `buildSubset` pass actually consumes from
one routeInfo list: those present in the network's link map. -/
def keptIds (vistaNetwork : GraphLib) (links : List GraphLink) : List Int :=
  links.filterMap (fun l =>
    if (vistaNetwork.links.lookup l.id).isSome then some l.id else none)

/-- The ordered route-link ids `buildSubset` consumes across a tree-node
list, threading the running output-list length `k` through the skip rule of
line 248 (skip a node repeating the first link id while exactly one link has
been output). -/
def processedIds (vistaNetwork : GraphLib) (firstLinkID : Int) :
    List PathEnd → ℕ → List Int
  | [], _ => []
  | node :: rest, k =>
    match node.routeInfo with
    | [] => processedIds vistaNetwork firstLinkID rest k
    | r0 :: rs =>
      if k = 1 ∧ r0.id = firstLinkID then processedIds vistaNetwork firstLinkID rest k
      else
        let ids := keptIds vistaNetwork (r0 :: rs)
        ids ++ processedIds vistaNetwork firstLinkID rest (k + ids.length)

/-- First tree node of the `buildSubset` example: chosen point on `exL1`,
route info `[exL1]`. -/
def c7First : PathEnd :=
  { pointOnLink := ⟨exL1, 0, false, 0, 0, 0⟩, restart := false, routeInfo := [exL1]
    totalDist := 0, totalCost := 0 }

/-- Second tree node of the `buildSubset` example: chosen point on `exL2`,
route info `[exL2]`. -/
def c7Second : PathEnd :=
  { pointOnLink := ⟨exL2, 0, false, 0, 10, 0⟩, restart := false, routeInfo := [exL2]
    totalDist := 0, totalCost := 0 }

/-- A single-path subnet holding the tail link of uid 202. -/
def c6Subset : GraphLib := ⟨true, [], [(202, mkPlainLink 2 202)], 203⟩

/-- A three-entry result tree whose middle entry sits on link uid 201. -/
def c6Tree : List PathEnd :=
  [mkPlainPathEnd (mkPlainLink 1 201), mkPlainPathEnd (mkPlainLink 1 201),
   mkPlainPathEnd (mkPlainLink 1 201)]

/-- One CSV row of the AVL input (avl_distances.py `readAVLCSV`).  The
`timestamp` holds the `strptime`-parsed instant as a point on an integer
timeline (parsing itself is external `datetime` code; only ordering is
read); `speed` and `distTraveled` stay raw strings, as the reader never
converts them.  The row carries a `lng` field because line 128 reads
`fileLine["lng"]`, although the header check of line 84 only requires a
`lon` column — on a CSV without an extra `lng` column that line raises
`KeyError`. -/
structure AVLRow where
  vehicleID : String
  routeID : String
  tripHeadsign : String
  tripID : String
  timestamp : Int
  speed : String
  lat : ℚ
  lng : ℚ
  distTraveled : String
deriving DecidableEq, Repr

/-- The fake stop fabricated per AVL point (avl_distances.py line 128):
`gtfs.StopsEntry(ctr, fileLine["speed"], lat, lng)` — the running counter as
stop id and the raw speed string as the stop *name*.  The planar projection
of line 129 goes through the external `gps` helper and is not read by the
embedded code, so it is omitted. -/
structure AVLStop where
  stopID : ℕ
  stopName : String
  gpsLat : ℚ
  gpsLng : ℚ
deriving DecidableEq, Repr

/-- The fake stop time fabricated per AVL point (avl_distances.py lines
130-132): sequence number `ctr`, arrival and departure at the row's
timestamp. -/
structure AVLStopTime where
  tripID : String
  stop : AVLStop
  stopSeq : ℕ
  arrivalTime : Int
  departureTime : Int
deriving DecidableEq, Repr

/-- The loop state of `readAVLCSV` (avl_distances.py lines 69-78). -/
structure AVLState where
  prevTime : Option Int
  prevRouteID : Option String
  prevTripID : Option String
  prevRouteHeadsign : Option String
  duplicateMsgFlag : Bool
  duplicateTimes : List String
  previousTripIDs : List String
  ctr : ℕ
  ret : List (String × List AVLStopTime)
deriving Repr

/-- `ret[tripID].append(stopTime)` with creation on first use
(avl_distances.py lines 136-138). -/
def appendRet (ret : List (String × List AVLStopTime)) (k : String) (v : AVLStopTime) :
    List (String × List AVLStopTime) :=
  if (ret.lookup k).isSome then
    ret.map (fun p => if p.1 = k then (p.1, p.2 ++ [v]) else p)
  else ret ++ [(k, [v])]

/-- Marking a trip id in the `duplicateTimes` warning set. -/
def markDuplicate (duplicateTimes : List String) (tripID : String) : List String :=
  if tripID ∈ duplicateTimes then duplicateTimes else duplicateTimes ++ [tripID]

/-- The timestamp check and stop fabrication of `readAVLCSV`
(avl_distances.py lines 111-138), run for rows that passed the route and
trip checks: skip a row whose timestamp decreases within the trip (single
warning per trip), skip a trip id absent from the GTFS trips, otherwise
fabricate the fake stop and stop time and store them under the trip id. -/
def avlTimeAndStore (gtfsTripIDs : List String) (st : AVLState) (row : AVLRow) : AVLState :=
  if st.prevTime.any (fun pt => decide (row.timestamp < pt)) then
    { st with duplicateTimes := markDuplicate st.duplicateTimes row.tripID }
  else
    let st1 := { st with prevTime := some row.timestamp }
    if row.tripID ∉ gtfsTripIDs then
      { st1 with duplicateTimes := markDuplicate st1.duplicateTimes row.tripID }
    else
      let stop : AVLStop := ⟨st1.ctr, row.speed, row.lat, row.lng⟩
      let stopTime : AVLStopTime := ⟨row.tripID, stop, st1.ctr, row.timestamp, row.timestamp⟩
      { st1 with ctr := st1.ctr + 1, ret := appendRet st1.ret row.tripID stopTime }

/-- One row of `readAVLCSV` (avl_distances.py lines 90-138).  Rows not
matching the `-r`/`-h` parameters are ignored.  The ambiguity check of lines
91-97 compares the row against `prevRouteID`/`prevRouteHeadsign`; lines
98-99 of the source then store the row's *headsign* into `prevRouteID` and
its *route id* into `prevRouteHeadsign` — the cross-assignment is embedded
faithfully.  A trip id resuming after another trip is skipped with a
warning (lines 101-105). -/
def avlRowStep (gtfsTripIDs : List String) (routeID routeHeadsign : Option String)
    (st : AVLState) (row : AVLRow) : AVLState :=
  if (routeID.all (fun r => decide (row.routeID = r))) &&
      (routeHeadsign.all (fun h => decide (row.tripHeadsign = h))) then
    if (st.prevRouteID.any (fun pr => decide (pr ≠ row.routeID))) ||
        (st.prevRouteHeadsign.any (fun ph => decide (ph ≠ row.tripHeadsign))) then
      { st with duplicateMsgFlag := true }
    else
      let st1 := { st with prevRouteHeadsign := some row.routeID, prevRouteID := some row.tripHeadsign }
      if st1.prevTripID = none ∨ st1.prevTripID ≠ some row.tripID then
        if row.tripID ∈ st1.previousTripIDs then st1
        else
          let st2 := { st1 with previousTripIDs := st1.previousTripIDs ++ [row.tripID], prevTripID := some row.tripID, ctr := 0, prevTime := none }
          avlTimeAndStore gtfsTripIDs st2 row
      else avlTimeAndStore gtfsTripIDs st1 row
  else st

/-- The final reader state over all CSV rows (avl_distances.py lines 65-138;
the header sanity check of lines 82-88 concerns the external CSV layer). -/
def readAVLCSVState (rows : List AVLRow) (gtfsTripIDs : List String)
    (routeID routeHeadsign : Option String) : AVLState :=
  rows.foldl (avlRowStep gtfsTripIDs routeID routeHeadsign)
    ⟨none, none, none, none, false, [], [], 0, []⟩

/-- `readAVLCSV`: the trip-id-to-stop-times dictionary (line 141). -/
def readAVLCSV (rows : List AVLRow) (gtfsTripIDs : List String)
    (routeID routeHeadsign : Option String) : List (String × List AVLStopTime) :=
  (readAVLCSVState rows gtfsTripIDs routeID routeHeadsign).ret

/-- The value printed in the `speed` column of the AVL distance output
(avl_distances.py lines 245-246, non-stops branch): the last `%f` argument
is `stopTimes[ctr].stop.stopName`. -/
def avlOutSpeedField (stopTime : AVLStopTime) : String :=
  stopTime.stop.stopName

/-- First AVL example row: route `R1`, headsign `NORTH`, trip `T1`. -/
def c8Row1 : AVLRow :=
  { vehicleID := "v1", routeID := "R1", tripHeadsign := "NORTH", tripID := "T1"
    timestamp := 100, speed := "12.5", lat := 0, lng := 0, distTraveled := "0" }

/-- Second AVL example row: identical route, headsign and trip, later time. -/
def c8Row2 : AVLRow := { c8Row1 with timestamp := 160 }

/-- Claim C10.  Constructing a `PointOnLink` on a link whose cached length is
zero never divides by zero: the interpolation divisor is forced to `1` and
the projected coordinates equal the origin node's coordinates, for every
`dist` argument. -/
theorem pointOnLink_zero_length_link (link : GraphLink) (dist : ℚ)
    (nonPerpPenalty : Bool) (refDist : ℚ) (h : link.distance = 0) :
    (PointOnLink.make link dist nonPerpPenalty refDist).pointX = link.origNode.coordX ∧
    (PointOnLink.make link dist nonPerpPenalty refDist).pointY = link.origNode.coordY := by
  simp [PointOnLink.make, h]

/-- Witness for claim C10 at a concrete zero-length link and `dist = 5`. -/
theorem pointOnLink_zero_length_link_witness :
    (PointOnLink.make zeroLenLink 5 false 0).pointX = zeroLenLink.origNode.coordX ∧
    (PointOnLink.make zeroLenLink 5 false 0).pointY = zeroLenLink.origNode.coordY :=
  pointOnLink_zero_length_link zeroLenLink 5 false 0 rfl

/-- Inserting into the refDist-ordered list is a permutation of consing. -/
theorem perm_insertByRefDist (x : PointOnLink) (l : List PointOnLink) :
    (insertByRefDist x l).Perm (x :: l) := by
  induction l with
  | nil => simp [insertByRefDist]
  | cons y ys ih =>
    simp only [insertByRefDist]
    split
    · exact (ih.cons y).trans (List.Perm.swap x y ys)
    · exact List.Perm.refl _

/-- Sorting by refDist permutes the input list. -/
theorem perm_sortByRefDist (l : List PointOnLink) : (sortByRefDist l).Perm l := by
  induction l with
  | nil => simp [sortByRefDist]
  | cons x xs ih => exact (perm_insertByRefDist x (sortByRefDist xs)).trans (ih.cons x)

/-- Membership is preserved by the refDist sort. -/
theorem mem_sortByRefDist (p : PointOnLink) (l : List PointOnLink) :
    p ∈ sortByRefDist l ↔ p ∈ l :=
  (perm_sortByRefDist l).mem_iff

/-- Insertion preserves the ascending-refDist ordering. -/
theorem pairwise_insertByRefDist (x : PointOnLink) (l : List PointOnLink)
    (h : l.Pairwise (fun a b => a.refDist ≤ b.refDist)) :
    (insertByRefDist x l).Pairwise (fun a b => a.refDist ≤ b.refDist) := by
  induction l with
  | nil => simp [insertByRefDist]
  | cons y ys ih =>
    rw [List.pairwise_cons] at h
    simp only [insertByRefDist]
    split
    case isTrue hc =>
      rw [List.pairwise_cons]
      constructor
      · intro b hb
        rcases List.mem_cons.mp ((perm_insertByRefDist x ys).mem_iff.mp hb) with rfl | hb2
        · exact hc
        · exact h.1 b hb2
      · exact ih h.2
    case isFalse hc =>
      have hxy : x.refDist ≤ y.refDist := le_of_not_le hc
      rw [List.pairwise_cons]
      constructor
      · intro b hb
        rcases List.mem_cons.mp hb with rfl | hb2
        · exact hxy
        · exact hxy.trans (h.1 b hb2)
      · exact List.pairwise_cons.mpr h

/-- The refDist sort produces an ascending list. -/
theorem sorted_sortByRefDist (l : List PointOnLink) :
    (sortByRefDist l).Pairwise (fun a b => a.refDist ≤ b.refDist) := by
  induction l with
  | nil => simp [sortByRefDist]
  | cons x xs ih => exact pairwise_insertByRefDist x (sortByRefDist xs) ih

/-- Characterization of the retained-and-accepted scan body: `linkCandidate`
yields `some p` exactly when `p` is the projection of the query on the link,
within `radius`, and within `primaryRadius` or close to a previous point. -/
theorem linkCandidate_eq_some (sqrtFn : ℚ → ℚ)
    (px py radius primaryRadius secondaryRadius : ℚ)
    (prevPoints : List PointOnLink) (link : GraphLink) (p : PointOnLink) :
    linkCandidate sqrtFn px py radius primaryRadius secondaryRadius prevPoints link = some p ↔
      ((pointDistSq px py link.origNode.coordX link.origNode.coordY
          link.destNode.coordX link.destNode.coordY link.distance).1 ≤ radius ^ 2 ∧
        p = PointOnLink.make link
          (pointDistSq px py link.origNode.coordX link.origNode.coordY
            link.destNode.coordX link.destNode.coordY link.distance).2.1
          (!(pointDistSq px py link.origNode.coordX link.origNode.coordY
            link.destNode.coordX link.destNode.coordY link.distance).2.2)
          (sqrtFn (pointDistSq px py link.origNode.coordX link.origNode.coordY
            link.destNode.coordX link.destNode.coordY link.distance).1) ∧
        ((pointDistSq px py link.origNode.coordX link.origNode.coordY
            link.destNode.coordX link.destNode.coordY link.distance).1 ≤ primaryRadius ^ 2 ∨
          ∃ q ∈ prevPoints,
            getNormSq p.pointX p.pointY q.pointX q.pointY < secondaryRadius ^ 2)) := by
  simp only [linkCandidate]
  split_ifs with h1 h2 h3
  · simp only [Option.some_inj]
    constructor
    · rintro rfl
      exact ⟨h1, rfl, Or.inl h2⟩
    · rintro ⟨-, rfl, -⟩
      rfl
  · simp only [Option.some_inj]
    constructor
    · rintro rfl
      rw [List.any_eq_true] at h3
      obtain ⟨q, hq, hlt⟩ := h3
      exact ⟨h1, rfl, Or.inr ⟨q, hq, by simpa using hlt⟩⟩
    · rintro ⟨-, rfl, -⟩
      rfl
  · constructor
    · rintro ⟨⟩
    · rintro ⟨-, rfl, hor⟩
      rcases hor with hp | ⟨q, hq, hlt⟩
      · exact absurd hp h2
      · rw [List.any_eq_true] at h3
        exact absurd ⟨q, hq, by simpa using hlt⟩ h3
  · constructor
    · rintro ⟨⟩
    · rintro ⟨hp, -, -⟩
      exact absurd hp h1

/-- Membership in the working set is the declarative acceptance condition. -/
theorem mem_retainedCandidates (g : GraphLib) (sqrtFn : ℚ → ℚ)
    (px py radius primaryRadius secondaryRadius : ℚ)
    (prevPoints : List PointOnLink) (p : PointOnLink) :
    p ∈ retainedCandidates g sqrtFn px py radius primaryRadius secondaryRadius prevPoints ↔
      AcceptedCand g sqrtFn px py radius primaryRadius secondaryRadius prevPoints p := by
  simp only [retainedCandidates, AcceptedCand, List.mem_filterMap, linkCandidate_eq_some]

/-- Claim C2 (amended).  Every point returned by `findPointsOnLinks` is a
projection retained within `radius` and accepted by the primary-radius or
previous-point rule; the returned list is sorted by ascending `refDist` and
holds at most `limitClosestPoints` entries; and every accepted candidate that
the junction dedup does not remove survives into the sorted list from which
the first `limitClosestPoints` are returned.  (The original claim's "iff"
fails because of the junction dedup; see the counterexample.) -/
theorem findPointsOnLinks_characterization (g : GraphLib) (sqrtFn : ℚ → ℚ)
    (px py radius primaryRadius secondaryRadius : ℚ)
    (prevPoints : List PointOnLink) (limitClosestPoints : ℕ) :
    (∀ p ∈ findPointsOnLinks g sqrtFn px py radius primaryRadius secondaryRadius
        prevPoints limitClosestPoints,
      AcceptedCand g sqrtFn px py radius primaryRadius secondaryRadius prevPoints p) ∧
    (findPointsOnLinks g sqrtFn px py radius primaryRadius secondaryRadius
        prevPoints limitClosestPoints).Pairwise (fun a b => a.refDist ≤ b.refDist) ∧
    (findPointsOnLinks g sqrtFn px py radius primaryRadius secondaryRadius
        prevPoints limitClosestPoints).length ≤ limitClosestPoints ∧
    (∀ p, AcceptedCand g sqrtFn px py radius primaryRadius secondaryRadius prevPoints p →
      isJunctionDup (retainedCandidates g sqrtFn px py radius primaryRadius
        secondaryRadius prevPoints) p = false →
      p ∈ sortByRefDist ((retainedCandidates g sqrtFn px py radius primaryRadius
          secondaryRadius prevPoints).filter
        (fun q => !(isJunctionDup (retainedCandidates g sqrtFn px py radius primaryRadius
          secondaryRadius prevPoints) q)))) := by
  refine ⟨?_, ?_, ?_, ?_⟩
  · intro p hp
    simp only [findPointsOnLinks] at hp
    have h1 := List.take_subset _ _ hp
    have h2 := (mem_sortByRefDist _ _).mp h1
    exact (mem_retainedCandidates g sqrtFn px py radius primaryRadius secondaryRadius
      prevPoints p).mp (List.mem_of_mem_filter h2)
  · simp only [findPointsOnLinks]
    exact List.Pairwise.sublist (List.take_sublist _ _) (sorted_sortByRefDist _)
  · simp only [findPointsOnLinks]
    exact List.length_take_le _ _
  · intro p hacc hdup
    have h1 := (mem_retainedCandidates g sqrtFn px py radius primaryRadius secondaryRadius
      prevPoints p).mpr hacc
    exact (mem_sortByRefDist _ _).mpr (List.mem_filter.mpr ⟨h1, by simp [hdup]⟩)

/-- Evaluation of the working set for the query point `(11, -1)` against the
example network: the scan retains the nonperpendicular tail match on `exL1`
and the nonperpendicular head match on `exL2`, both at squared distance 2. -/
theorem retainedCandidates_ex :
    retainedCandidates exGraph exSqrt 11 (-1) 5 5 0 [] = [exTailPoint, exHeadPoint] := by
  norm_num [retainedCandidates, GraphLib.linkValues, exGraph, linkCandidate, pointDistSq,
    getNormSq, exL1, exL2, exNodeA, exNodeB, exNodeC, PointOnLink.make, exSqrt,
    exTailPoint, exHeadPoint, List.filterMap]

/-- Evaluation of the full candidate query for `(11, -1)`: the junction dedup
removes the head match on `exL2`, leaving only the tail match on `exL1`. -/
theorem findPointsOnLinks_ex :
    findPointsOnLinks exGraph exSqrt 11 (-1) 5 5 0 [] 10 = [exTailPoint] := by
  norm_num [findPointsOnLinks, retainedCandidates_ex, isJunctionDup, exTailPoint, exHeadPoint,
    exL1, exL2, exNodeA, exNodeB, exNodeC, sortByRefDist, insertByRefDist, List.filter]

/-- Claim C2 counterexample.  The head-of-`exL2` candidate for the query
point `(11, -1)` is retained (squared distance `2 ≤ 5²`) and accepted
(`2 ≤ 5²`, the primary radius), yet it is not in the returned list even
though the list is not full: the junction dedup removed it.  So "a retained
candidate is included in the result iff `distSq ≤ primaryRadius²` or it is
near a previous point" fails as stated. -/
theorem findPointsOnLinks_accept_iff_counterexample :
    AcceptedCand exGraph exSqrt 11 (-1) 5 5 0 [] exHeadPoint ∧
    exHeadPoint ∉ findPointsOnLinks exGraph exSqrt 11 (-1) 5 5 0 [] 10 := by
  constructor
  · refine ⟨exL2, by simp [exGraph, GraphLib.linkValues], ?_, ?_, Or.inl ?_⟩ <;>
      norm_num [pointDistSq, getNormSq, exL2, exNodeB, exNodeC, PointOnLink.make,
        exSqrt, exHeadPoint]
  · rw [findPointsOnLinks_ex]
    simp only [List.mem_singleton]
    intro h
    have : exHeadPoint.link.id = exTailPoint.link.id := by rw [h]
    simp [exHeadPoint, exTailPoint, exL1, exL2] at this

/-- Witness applying `findPointsOnLinks_characterization` at the example
network and query `(11, -1)`: the accepted, non-deduplicated tail candidate
survives into the sorted candidate list. -/
theorem findPointsOnLinks_characterization_witness :
    exTailPoint ∈ sortByRefDist ((retainedCandidates exGraph exSqrt 11 (-1) 5 5 0 []).filter
      (fun q => !(isJunctionDup (retainedCandidates exGraph exSqrt 11 (-1) 5 5 0 []) q))) := by
  refine (findPointsOnLinks_characterization exGraph exSqrt 11 (-1) 5 5 0 [] 10).2.2.2
    exTailPoint ⟨exL1, by simp [exGraph, GraphLib.linkValues], ?_, ?_, Or.inl ?_⟩ ?_
  · norm_num [pointDistSq, getNormSq, exL1, exNodeA, exNodeB]
  · norm_num [pointDistSq, getNormSq, exL1, exNodeA, exNodeB, PointOnLink.make,
      exSqrt, exTailPoint]
  · norm_num [pointDistSq, getNormSq, exL1, exNodeA, exNodeB]
  · rw [retainedCandidates_ex]
    norm_num [isJunctionDup, exTailPoint, exHeadPoint, exL1, exL2, exNodeB, exNodeC]

/-- Claim C3.  Whenever the working set holds a nonperpendicular candidate at
the tail of a link (`dist = link.distance ≠ 0`) and a nonperpendicular
candidate at the head (`dist = 0`) of an immediately downstream link with the
same `refDist`, the tail candidate survives the junction dedup and the head
candidate is never returned — in particular the two are never returned
together. -/
theorem junction_dedup_drops_downstream_head (g : GraphLib) (sqrtFn : ℚ → ℚ)
    (px py radius primaryRadius secondaryRadius : ℚ)
    (prevPoints : List PointOnLink) (limitClosestPoints : ℕ)
    (L1 L2 : GraphLink) (pTail pHead : PointOnLink)
    (hL1 : L1 ∈ g.linkValues) (hL2 : L2 ∈ g.linkValues)
    (hcT : linkCandidate sqrtFn px py radius primaryRadius secondaryRadius prevPoints L1 =
      some pTail)
    (hcH : linkCandidate sqrtFn px py radius primaryRadius secondaryRadius prevPoints L2 =
      some pHead)
    (hTnp : pTail.nonPerpPenalty = true)
    (hTd0 : ¬pTail.dist = 0)
    (hTd : pTail.dist = pTail.link.distance)
    (hHnp : pHead.nonPerpPenalty = true)
    (hHd : pHead.dist = 0)
    (hjoin : pTail.link.destNode = pHead.link.origNode)
    (href : pTail.refDist = pHead.refDist) :
    pTail ∈ (retainedCandidates g sqrtFn px py radius primaryRadius secondaryRadius
        prevPoints).filter
      (fun q => !(isJunctionDup (retainedCandidates g sqrtFn px py radius primaryRadius
        secondaryRadius prevPoints) q)) ∧
    pHead ∉ findPointsOnLinks g sqrtFn px py radius primaryRadius secondaryRadius
      prevPoints limitClosestPoints := by
  have hTmem : pTail ∈ retainedCandidates g sqrtFn px py radius primaryRadius
      secondaryRadius prevPoints :=
    List.mem_filterMap.mpr ⟨L1, hL1, hcT⟩
  have hdupT : isJunctionDup (retainedCandidates g sqrtFn px py radius primaryRadius
      secondaryRadius prevPoints) pTail = false := by
    simp [isJunctionDup, hTd0]
  have hdupH : isJunctionDup (retainedCandidates g sqrtFn px py radius primaryRadius
      secondaryRadius prevPoints) pHead = true := by
    simp only [isJunctionDup, Bool.and_eq_true, decide_eq_true_eq, List.any_eq_true,
      Bool.not_eq_eq_eq_not, Bool.not_true, decide_eq_false_iff_not]
    exact ⟨⟨hHnp, hHd⟩, pTail, hTmem, ⟨⟨⟨hTnp, hTd0⟩, hTd⟩, hjoin⟩, href⟩
  constructor
  · exact List.mem_filter.mpr ⟨hTmem, by simp [hdupT]⟩
  · intro hmem
    simp only [findPointsOnLinks] at hmem
    have h1 := List.take_subset _ _ hmem
    have h2 := (mem_sortByRefDist _ _).mp h1
    have h3 := (List.mem_filter.mp h2).2
    rw [hdupH] at h3
    simp at h3

/-- Witness applying `junction_dedup_drops_downstream_head` at the example
network and query `(11, -1)`: the head candidate on `exL2` is dropped. -/
theorem junction_dedup_drops_downstream_head_witness :
    (linkCandidate exSqrt 11 (-1) 5 5 0 [] exL1 = some exTailPoint) ∧
    (linkCandidate exSqrt 11 (-1) 5 5 0 [] exL2 = some exHeadPoint) ∧
    exHeadPoint ∉ findPointsOnLinks exGraph exSqrt 11 (-1) 5 5 0 [] 8 := by
  have hcT : linkCandidate exSqrt 11 (-1) 5 5 0 [] exL1 = some exTailPoint := by
    norm_num [linkCandidate, pointDistSq, getNormSq, exL1, exNodeA, exNodeB,
      PointOnLink.make, exSqrt, exTailPoint]
  have hcH : linkCandidate exSqrt 11 (-1) 5 5 0 [] exL2 = some exHeadPoint := by
    norm_num [linkCandidate, pointDistSq, getNormSq, exL2, exNodeB, exNodeC,
      PointOnLink.make, exSqrt, exHeadPoint]
  refine ⟨hcT, hcH, ?_⟩
  refine (junction_dedup_drops_downstream_head exGraph exSqrt 11 (-1) 5 5 0 [] 8
    exL1 exL2 exTailPoint exHeadPoint (by simp [exGraph, GraphLib.linkValues])
    (by simp [exGraph, GraphLib.linkValues]) hcT hcH rfl ?_ rfl rfl rfl rfl rfl).2
  norm_num [exTailPoint]

/-- The along-segment distance returned by the geometry kernel is clamped to
`[0, norm]` whenever the segment length is nonnegative. -/
theorem pointDistSq_alongDist_bounds (px py ax ay bx by_ norm : ℚ) (h : 0 ≤ norm) :
    0 ≤ (pointDistSq px py ax ay bx by_ norm).2.1 ∧
    (pointDistSq px py ax ay bx by_ norm).2.1 ≤ norm := by
  simp only [pointDistSq]
  split_ifs with h0 h1 h2
  · exact ⟨le_rfl, h⟩
  · exact h1
  · exact ⟨le_rfl, h⟩
  · exact ⟨h, le_rfl⟩

/-- Interpolation facts for the `PointOnLink` constructor on a well-measured
link and an in-range distance: the projected point lies on the segment, at
the origin node when `dist = 0` and at the destination node when
`dist = link.distance`. -/
theorem pointOnLink_make_on_segment (link : GraphLink) (d : ℚ) (np : Bool) (rd : ℚ)
    (hnn : 0 ≤ link.distance)
    (hz : link.distance = 0 →
      link.origNode.coordX = link.destNode.coordX ∧
      link.origNode.coordY = link.destNode.coordY)
    (h0 : 0 ≤ d) (h1 : d ≤ link.distance) :
    (∃ t, 0 ≤ t ∧ t ≤ 1 ∧
      (PointOnLink.make link d np rd).pointX =
        link.origNode.coordX + t * (link.destNode.coordX - link.origNode.coordX) ∧
      (PointOnLink.make link d np rd).pointY =
        link.origNode.coordY + t * (link.destNode.coordY - link.origNode.coordY)) ∧
    (d = 0 →
      (PointOnLink.make link d np rd).pointX = link.origNode.coordX ∧
      (PointOnLink.make link d np rd).pointY = link.origNode.coordY) ∧
    (d = link.distance →
      (PointOnLink.make link d np rd).pointX = link.destNode.coordX ∧
      (PointOnLink.make link d np rd).pointY = link.destNode.coordY) := by
  by_cases hd : link.distance = 0
  · obtain ⟨hx, hy⟩ := hz hd
    refine ⟨⟨0, le_rfl, zero_le_one, ?_, ?_⟩, fun _ => ⟨?_, ?_⟩, fun _ => ⟨?_, ?_⟩⟩ <;>
      simp [PointOnLink.make, hd, hx, hy]
  · have hpos : 0 < link.distance := lt_of_le_of_ne hnn (Ne.symm hd)
    refine ⟨⟨d / link.distance, div_nonneg h0 hnn, (div_le_one hpos).mpr h1, ?_, ?_⟩,
      fun he => ⟨?_, ?_⟩, fun he => ⟨?_, ?_⟩⟩
    · simp only [PointOnLink.make, hd, if_false]
      ring
    · simp only [PointOnLink.make, hd, if_false]
      ring
    · simp [PointOnLink.make, hd, he]
    · simp [PointOnLink.make, hd, he]
    · simp only [PointOnLink.make, hd, if_false, he]
      field_simp
    · simp only [PointOnLink.make, hd, if_false, he]
      field_simp

/-- Claim C5 (amended).  Every `PointOnLink` returned by the candidate
generator on a graph with well-measured links satisfies
`0 ≤ dist ≤ link.distance`, its projected point lies on the link's segment,
and it coincides with the origin node at `dist = 0` and with the destination
node at `dist = link.distance`.  (The original universal claim over every
`PointOnLink` produced by the system fails: the cross-trip reconciler resets
`pointOnLink.dist` to `-1` as an invalidation sentinel; see the
counterexample.) -/
theorem findPointsOnLinks_dist_invariant (g : GraphLib) (sqrtFn : ℚ → ℚ)
    (px py radius primaryRadius secondaryRadius : ℚ)
    (prevPoints : List PointOnLink) (limitClosestPoints : ℕ)
    (hg : LinkLengthsOK g) :
    ∀ p ∈ findPointsOnLinks g sqrtFn px py radius primaryRadius secondaryRadius
        prevPoints limitClosestPoints,
      0 ≤ p.dist ∧ p.dist ≤ p.link.distance ∧
      (∃ t, 0 ≤ t ∧ t ≤ 1 ∧
        p.pointX = p.link.origNode.coordX + t * (p.link.destNode.coordX - p.link.origNode.coordX) ∧
        p.pointY = p.link.origNode.coordY + t * (p.link.destNode.coordY - p.link.origNode.coordY)) ∧
      (p.dist = 0 → p.pointX = p.link.origNode.coordX ∧ p.pointY = p.link.origNode.coordY) ∧
      (p.dist = p.link.distance →
        p.pointX = p.link.destNode.coordX ∧ p.pointY = p.link.destNode.coordY) := by
  intro p hp
  simp only [findPointsOnLinks] at hp
  have h1 := List.take_subset _ _ hp
  have h2 := (mem_sortByRefDist _ _).mp h1
  have h3 := (mem_retainedCandidates g sqrtFn px py radius primaryRadius secondaryRadius
    prevPoints p).mp (List.mem_of_mem_filter h2)
  obtain ⟨link, hlink, -, hpeq, -⟩ := h3
  obtain ⟨hnn, hz⟩ := hg link hlink
  have hb := pointDistSq_alongDist_bounds px py link.origNode.coordX link.origNode.coordY
    link.destNode.coordX link.destNode.coordY link.distance hnn
  subst hpeq
  have hdist : (PointOnLink.make link
      (pointDistSq px py link.origNode.coordX link.origNode.coordY
        link.destNode.coordX link.destNode.coordY link.distance).2.1
      (!(pointDistSq px py link.origNode.coordX link.origNode.coordY
        link.destNode.coordX link.destNode.coordY link.distance).2.2)
      (sqrtFn (pointDistSq px py link.origNode.coordX link.origNode.coordY
        link.destNode.coordX link.destNode.coordY link.distance).1)).dist =
      (pointDistSq px py link.origNode.coordX link.origNode.coordY
        link.destNode.coordX link.destNode.coordY link.distance).2.1 := rfl
  have hlk : (PointOnLink.make link
      (pointDistSq px py link.origNode.coordX link.origNode.coordY
        link.destNode.coordX link.destNode.coordY link.distance).2.1
      (!(pointDistSq px py link.origNode.coordX link.origNode.coordY
        link.destNode.coordX link.destNode.coordY link.distance).2.2)
      (sqrtFn (pointDistSq px py link.origNode.coordX link.origNode.coordY
        link.destNode.coordX link.destNode.coordY link.distance).1)).link = link := rfl
  rw [hdist, hlk]
  exact ⟨hb.1, hb.2,
    pointOnLink_make_on_segment link _ _ _ hnn hz hb.1 hb.2⟩

/-- Witness applying `findPointsOnLinks_dist_invariant` to the tail candidate
returned for the query `(11, -1)` on the example network. -/
theorem findPointsOnLinks_dist_invariant_witness :
    0 ≤ exTailPoint.dist ∧ exTailPoint.dist ≤ exTailPoint.link.distance ∧
    (∃ t, 0 ≤ t ∧ t ≤ 1 ∧
      exTailPoint.pointX = exTailPoint.link.origNode.coordX +
        t * (exTailPoint.link.destNode.coordX - exTailPoint.link.origNode.coordX) ∧
      exTailPoint.pointY = exTailPoint.link.origNode.coordY +
        t * (exTailPoint.link.destNode.coordY - exTailPoint.link.origNode.coordY)) ∧
    (exTailPoint.dist = 0 →
      exTailPoint.pointX = exTailPoint.link.origNode.coordX ∧
      exTailPoint.pointY = exTailPoint.link.origNode.coordY) ∧
    (exTailPoint.dist = exTailPoint.link.distance →
      exTailPoint.pointX = exTailPoint.link.destNode.coordX ∧
      exTailPoint.pointY = exTailPoint.link.destNode.coordY) := by
  refine findPointsOnLinks_dist_invariant exGraph exSqrt 11 (-1) 5 5 0 [] 10 ?_
    exTailPoint ?_
  · intro l hl
    simp only [exGraph, GraphLib.linkValues, List.map_cons, List.map_nil,
      List.mem_cons, List.not_mem_nil, or_false] at hl
    rcases hl with rfl | rfl <;> norm_num [exL1, exL2]
  · rw [findPointsOnLinks_ex]
    simp

/-- Draining an empty queue leaves the walk state unchanged. -/
theorem walkLoop_queue_nil (ctx : WalkCtx) (orig dest : PointOnLink) (n : ℕ)
    (st : WalkState) (h : st.queue = []) : walkLoop ctx orig dest n st = st := by
  cases n with
  | zero => rfl
  | succ m => simp only [walkLoop, h]

/-- Processing a frame that sits on the destination link and passes the step,
distance and cost gates records it as the winner and enqueues nothing. -/
theorem walkStep_winner (ctx : WalkCtx) (orig dest : PointOnLink) (f : WalkFrame)
    (st : WalkState)
    (h1 : f.stepCount < ctx.limitSteps) (h2 : f.distance < st.backtrackScore)
    (h3 : ctx.exceeds f.cost = false) (h4 : f.incomingLink = dest.link) :
    (walkStep ctx orig dest f st).winner = some f ∧
    (walkStep ctx orig dest f st).queue = st.queue := by
  unfold walkStep
  rw [if_neg (not_le.mpr h1), if_neg (not_le.mpr h2), h3]
  simp only [Bool.false_eq_true, if_false, if_pos h4]
  exact ⟨trivial, trivial⟩

/-- Claim C4.  For two `PointOnLink`s on one and the same link, when the two
points are within `limitRadius` of each other and the step, distance and cost
limits admit the trivial walk, `walkPath` returns an empty traversed-link
list, distance `dest.dist - orig.dist`, and the cost given by the configured
score function for that distance. -/
theorem walkPath_same_link (ctx : WalkCtx)
    (cache0 : List (Int × List (Int × GraphLink))) (fuel : ℕ)
    (orig dest : PointOnLink)
    (hlink : orig.link = dest.link)
    (hrad : getNormSq dest.pointX dest.pointY orig.pointX orig.pointY ≤ ctx.limitRadiusSq)
    (hsteps : 0 < ctx.limitSteps)
    (hdist : dest.dist - orig.dist < ctx.limitDistance)
    (hcost : ctx.exceeds (ctx.score orig (dest.dist - orig.dist) (some dest)) = false)
    (hfuel : 0 < fuel) :
    (walkPath ctx cache0 fuel orig dest).1 =
      (some [], dest.dist - orig.dist,
        ctx.score orig (dest.dist - orig.dist) (some dest)) := by
  obtain ⟨n, rfl⟩ : ∃ n, fuel = n + 1 := ⟨fuel - 1, by omega⟩
  have harith : orig.link.distance - orig.dist - (dest.link.distance - dest.dist) =
      dest.dist - orig.dist := by
    rw [hlink]; ring
  have hd0 : (mkWalkFrame ctx orig dest none orig.link).distance = dest.dist - orig.dist := by
    simp only [mkWalkFrame, if_pos hlink]
    exact harith
  have hc0 : (mkWalkFrame ctx orig dest none orig.link).cost =
      ctx.score orig (dest.dist - orig.dist) (some dest) := by
    simp only [mkWalkFrame, if_pos hlink, harith]
  have hs0 : (mkWalkFrame ctx orig dest none orig.link).stepCount = 0 := rfl
  have hi0 : (mkWalkFrame ctx orig dest none orig.link).incomingLink = orig.link := rfl
  have hretl : (mkWalkFrame ctx orig dest none orig.link).retList = [] := rfl
  have hstep := walkStep_winner ctx orig dest (mkWalkFrame ctx orig dest none orig.link)
    ⟨none, ctx.limitDistance, cache0, []⟩
    (by rw [hs0]; exact hsteps) (by rw [hd0]; exact hdist) (by rw [hc0]; exact hcost)
    (by rw [hi0]; exact hlink)
  have hloop : walkLoop ctx orig dest (n + 1)
      ⟨none, ctx.limitDistance, cache0, [mkWalkFrame ctx orig dest none orig.link]⟩ =
      walkStep ctx orig dest (mkWalkFrame ctx orig dest none orig.link)
        ⟨none, ctx.limitDistance, cache0, []⟩ := by
    simp only [walkLoop]
    exact walkLoop_queue_nil ctx orig dest n _ hstep.2
  simp only [walkPath, if_neg (not_lt.mpr hrad)]
  rw [hloop, hstep.1]
  simp only [hretl, hd0, hc0]

/-- Witness applying `walkPath_same_link` to two points on `exL1`, two and
seven feet along: the walker returns the empty traversal, distance `5` and
the configured score of that distance. -/
theorem walkPath_same_link_witness :
    (walkPath exWalkCtx [] 5 exOrigPoint exDestPoint).1 =
      (some [], exDestPoint.dist - exOrigPoint.dist,
        exWalkCtx.score exOrigPoint (exDestPoint.dist - exOrigPoint.dist) (some exDestPoint)) := by
  refine walkPath_same_link exWalkCtx [] 5 exOrigPoint exDestPoint rfl ?_ ?_ ?_ rfl ?_
  · norm_num [getNormSq, exOrigPoint, exDestPoint, exWalkCtx]
  · norm_num [exWalkCtx]
  · norm_num [exOrigPoint, exDestPoint, exWalkCtx]
  · norm_num

/-- Claim C1 (failing input).  On a stop with two distinct link votes from
two trips, the reconciliation pass evaluates the deleted local `subsetLinks`
at its first mismatched referent and raises `UnboundLocalError`; nothing of
the claimed per-trip reassignment behaviour is reached.  The intended name
was `allSubsetLinks[tripID]`, built on lines 608-614 for exactly this test
and used via `allSubsets[tripID]` on line 651. -/
theorem reconcileStops_unbound_local :
    reconcileStops [(5, c1Stop)] c1Trees c1Subsets =
      Except.error "UnboundLocalError: subsetLinks, deleted at line 624, is read at line 647" := by
  rfl


/-- Claim C6.  A successful reassignment — the referent's current link
differs from the tail link and the tail link is present in the trip's subnet
— bumps the counter, rewrites the entry to the tail link with
`restart = true` and `dist = -1`, flags the immediately following entry
(when one exists) with `restart = true`, and changes nothing else in the
trip's result list. -/
theorem reassignReferent_effect (subset : GraphLib) (tailUid : Int)
    (resultTree : List PathEnd) (i : ℕ) (count : ℕ) (entry : PathEnd) (l : GraphLink)
    (hidx : resultTree[i]? = some entry)
    (hmis : entry.pointOnLink.link.uid ≠ tailUid)
    (hsub : subset.links.lookup tailUid = some l) :
    (reassignReferent subset tailUid resultTree i count).2 = count + 1 ∧
    (reassignReferent subset tailUid resultTree i count).1[i]? = some (reassignedEntry entry l) ∧
    (reassignedEntry entry l).restart = true ∧
    (reassignedEntry entry l).pointOnLink.dist = -1 ∧
    (reassignedEntry entry l).pointOnLink.link = l ∧
    (∀ nxt, resultTree[i + 1]? = some nxt →
      (reassignReferent subset tailUid resultTree i count).1[i + 1]? =
        some (restartMarked nxt) ∧ (restartMarked nxt).restart = true) ∧
    (∀ j, j ≠ i → j ≠ i + 1 →
      (reassignReferent subset tailUid resultTree i count).1[j]? = resultTree[j]?) := by
  have hilen : i < resultTree.length := by
    by_contra hc
    push_neg at hc
    rw [List.getElem?_eq_none hc] at hidx
    exact Option.noConfusion hidx
  have hmain : reassignReferent subset tailUid resultTree i count =
      (if i + 1 < (resultTree.set i (reassignedEntry entry l)).length then
        match (resultTree.set i (reassignedEntry entry l))[i + 1]? with
        | some nxt => (resultTree.set i (reassignedEntry entry l)).set (i + 1) (restartMarked nxt)
        | none => resultTree.set i (reassignedEntry entry l)
      else resultTree.set i (reassignedEntry entry l), count + 1) := by
    simp only [reassignReferent, hidx, hsub, ne_eq, hmis, not_false_eq_true, ite_true]
  rw [hmain]
  rw [List.length_set]
  refine ⟨rfl, ?_, rfl, rfl, rfl, ?_, ?_⟩
  · by_cases hc : i + 1 < resultTree.length
    · rw [if_pos hc]
      rw [List.getElem?_set_ne (by omega)]
      rcases hnx : resultTree[i + 1]? with _ | nxt
      · rw [List.getElem?_eq_none_iff] at hnx
        omega
      · simp only []
        rw [List.getElem?_set_ne (by omega), List.getElem?_set_self hilen]
    · rw [if_neg hc]
      rw [List.getElem?_set_self hilen]
  · intro nxt hnxt
    have hlt : i + 1 < resultTree.length := by
      by_contra hc
      push_neg at hc
      rw [List.getElem?_eq_none hc] at hnxt
      exact Option.noConfusion hnxt
    rw [if_pos hlt]
    rw [List.getElem?_set_ne (by omega), hnxt]
    simp only []
    refine ⟨?_, rfl⟩
    rw [List.getElem?_set_self]
    rw [List.length_set]
    omega
  · intro j hji hji1
    by_cases hc : i + 1 < resultTree.length
    · rw [if_pos hc]
      rw [List.getElem?_set_ne (by omega)]
      rcases hnx : resultTree[i + 1]? with _ | nxt
      · rw [List.getElem?_eq_none_iff] at hnx
        omega
      · simp only []
        rw [List.getElem?_set_ne (by omega), List.getElem?_set_ne (by omega)]
    · rw [if_neg hc]
      rw [List.getElem?_set_ne (by omega)]

/-- Witness applying `reassignReferent_effect` at the concrete subnet and
result tree: the middle entry is reassigned to the tail link, the following
entry is flagged, the preceding entry is untouched, and the counter is
bumped. -/
theorem reassignReferent_effect_witness :
    (reassignReferent c6Subset 202 c6Tree 1 0).2 = 1 ∧
    (reassignReferent c6Subset 202 c6Tree 1 0).1[1]? =
      some (reassignedEntry (mkPlainPathEnd (mkPlainLink 1 201)) (mkPlainLink 2 202)) ∧
    (reassignReferent c6Subset 202 c6Tree 1 0).1[2]? =
      some (restartMarked (mkPlainPathEnd (mkPlainLink 1 201))) ∧
    (reassignReferent c6Subset 202 c6Tree 1 0).1[0]? = c6Tree[0]? := by
  obtain ⟨h1, h2, -, -, -, h6, h7⟩ := reassignReferent_effect c6Subset 202 c6Tree 1 0
    (mkPlainPathEnd (mkPlainLink 1 201)) (mkPlainLink 2 202) rfl (by decide) rfl
  exact ⟨h1, h2, (h6 _ rfl).1, h7 0 (by omega) (by omega)⟩

/-- Claim C5 counterexample.  The reconciler's reassignment step (the code
cited by the claim, transit_gtfs.py lines 645-655) produces a `PointOnLink`
whose `dist` is `-1`, violating `0 ≤ dist ≤ link.distance`. -/
theorem pointOnLink_dist_invariant_counterexample :
    ((reassignReferent c6Subset 202 c6Tree 1 0).1[1]?).map (fun e => e.pointOnLink.dist) =
      some ((-1 : ℚ)) ∧ ¬((0 : ℚ) ≤ (-1 : ℚ)) := by
  refine ⟨rfl, ?_⟩
  norm_num

/-- `addLink` preserves the link's id in every branch (it only fills in
`distance` and `uid`). -/
theorem addLink_snd_id (g : GraphLib) (sqrtFn : ℚ → ℚ) (link : GraphLink) :
    (g.addLink sqrtFn link).2.id = link.id := by
  unfold GraphLib.addLink
  split_ifs <;> rfl

/-- `keptIds` distributes over the head of the link list. -/
theorem keptIds_cons (net : GraphLib) (l : GraphLink) (ls : List GraphLink) :
    keptIds net (l :: ls) = keptIds net [l] ++ keptIds net ls := by
  unfold keptIds
  by_cases h : (net.links.lookup l.id).isSome <;> simp [List.filterMap_cons, h]

/-- One `processLink` step appends the pending id exactly when the link is
known to the network, and leaves that link's id pending. -/
theorem processLink_invariant (net : GraphLib) (sqrtFn : ℚ → ℚ) (st : BuildState)
    (l : GraphLink) :
    ((processLink net sqrtFn st l).outLinkList.map (fun x => x.id)) ++
      [(processLink net sqrtFn st l).prevLinkID] =
      (st.outLinkList.map (fun x => x.id)) ++ [st.prevLinkID] ++ keptIds net [l] ∧
    (processLink net sqrtFn st l).outLinkList.length =
      st.outLinkList.length + (keptIds net [l]).length := by
  unfold processLink
  rcases hl : net.links.lookup l.id with _ | v
  · simp [keptIds, hl]
  · constructor
    · simp [keptIds, hl, addLink_snd_id]
    · simp [keptIds, hl]

/-- Folding `processLink` over a routeInfo list appends exactly the kept ids,
shifted one position by the pending id. -/
theorem processLinks_fold_invariant (net : GraphLib) (sqrtFn : ℚ → ℚ)
    (links : List GraphLink) :
    ∀ st : BuildState,
      ((links.foldl (processLink net sqrtFn) st).outLinkList.map (fun x => x.id)) ++
        [(links.foldl (processLink net sqrtFn) st).prevLinkID] =
        (st.outLinkList.map (fun x => x.id)) ++ [st.prevLinkID] ++ keptIds net links ∧
      (links.foldl (processLink net sqrtFn) st).outLinkList.length =
        st.outLinkList.length + (keptIds net links).length := by
  induction links with
  | nil =>
    intro st
    simp [keptIds]
  | cons l ls ih =>
    intro st
    simp only [List.foldl_cons]
    obtain ⟨h1, h2⟩ := ih (processLink net sqrtFn st l)
    obtain ⟨g1, g2⟩ := processLink_invariant net sqrtFn st l
    rw [keptIds_cons]
    constructor
    · rw [h1, g1]
      simp [List.append_assoc]
    · rw [h2, g2]
      simp [List.length_append]
      omega

/-- Folding `processNode` over the tree nodes appends exactly the processed
ids, shifted one position by the pending id; the skip rule sees the running
output length. -/
theorem processNodes_fold_invariant (net : GraphLib) (sqrtFn : ℚ → ℚ) (a : Int)
    (nodes : List PathEnd) :
    ∀ st : BuildState,
      ((nodes.foldl (processNode net sqrtFn a) st).outLinkList.map (fun x => x.id)) ++
        [(nodes.foldl (processNode net sqrtFn a) st).prevLinkID] =
        (st.outLinkList.map (fun x => x.id)) ++ [st.prevLinkID] ++
          processedIds net a nodes st.outLinkList.length ∧
      (nodes.foldl (processNode net sqrtFn a) st).outLinkList.length =
        st.outLinkList.length + (processedIds net a nodes st.outLinkList.length).length := by
  induction nodes with
  | nil =>
    intro st
    simp [processedIds]
  | cons node ns ih =>
    intro st
    simp only [List.foldl_cons, processedIds]
    rcases hri : node.routeInfo with _ | ⟨r0, rs⟩
    · simp only [processNode, hri]
      exact ih st
    · simp only [processNode, hri]
      by_cases hskip : st.outLinkList.length = 1 ∧ r0.id = a
      · rw [if_pos hskip, if_pos hskip]
        exact ih st
      · rw [if_neg hskip, if_neg hskip]
        obtain ⟨f1, f2⟩ := processLinks_fold_invariant net sqrtFn (r0 :: rs) st
        obtain ⟨h1, h2⟩ := ih ((r0 :: rs).foldl (processLink net sqrtFn) st)
        constructor
        · rw [h1, f1, f2]
          simp [List.append_assoc]
        · rw [h2, f2]
          simp [List.length_append]
          omega

/-- Claim C7 (amended).  The link list returned by `buildSubset` carries, in
order, the id of the first chosen link followed by the ids of the route links
consumed from the tree nodes (those present in the network, subject to the
repeat-first-link skip rule): every created link carries the id of the link
*preceding* it on the path, and one trailing link completes the path with the
last consumed id.  The original claim — that the output reproduces the
routeInfo id sequence itself — fails by this one-position shift; see the
counterexample. -/
theorem buildSubset_ids (sqrtFn : ℚ → ℚ) (vistaNetwork : GraphLib) (first : PathEnd)
    (rest : List PathEnd) :
    (buildSubset sqrtFn vistaNetwork first rest).2.map (fun l => l.id) =
      first.pointOnLink.link.id ::
        processedIds vistaNetwork first.pointOnLink.link.id (first :: rest) 0 := by
  obtain ⟨h1, h2⟩ := processNodes_fold_invariant vistaNetwork sqrtFn
    first.pointOnLink.link.id (first :: rest)
    ⟨⟨true, [], [], 0⟩, [], copyNode first.pointOnLink.link.origNode, first.pointOnLink.link.id⟩
  simp only [buildSubset, List.map_append, List.map_cons, List.map_nil, addLink_snd_id]
  simp only [List.map_nil, List.nil_append, List.length_nil] at h1
  simpa using h1

/-- Claim C7 counterexample.  For a two-node tree whose route links are
`exL1` then `exL2`, the ordered routeInfo link ids are `[101, 102]`, but
`buildSubset` returns three links with ids `[101, 101, 102]` — a leading
zero-length stub duplicating the first id — so the output does not reproduce
the routeInfo sequence. -/
theorem buildSubset_reproduce_counterexample :
    (buildSubset exSqrt exGraph c7First [c7Second]).2.map (fun l => l.id) ≠
      (c7First.routeInfo ++ c7Second.routeInfo).map (fun l => l.id) := by
  decide

/-- Claim C8 (failing input).  Two consecutive rows carrying the *same*
`(route_id, trip_headsign)` pair `("R1", "NORTH")` and nondecreasing
timestamps: the claim says both are processed, but the reader stores only the
first row's point and raises the ambiguity warning on the second, because
lines 98-99 store the headsign into `prevRouteID` and the route id into
`prevRouteHeadsign`, so line 91 compares the second row's route id against
the remembered *headsign*. -/
theorem readAVLCSV_same_pair_skipped :
    ((readAVLCSV [c8Row1, c8Row2] ["T1"] none none).lookup "T1").map
      (fun l => l.length) = some 1 ∧
    (readAVLCSVState [c8Row1, c8Row2] ["T1"] none none).duplicateMsgFlag = true := by
  constructor
  · rfl
  · rfl

/-- Claim C9 (failing input).  The fake stop fabricated for an AVL sample
stores the raw CSV speed *string* in the stop-name field, and the writer of
avl_distances.py line 245 prints exactly that field (`stop.stopName`) as the
last `%f` argument of the output row — a string under a float conversion.
The distance loop above it (line 229) dereferences
`pointOnLink.link.linkID`, an attribute `GraphLink` does not define, so the
non-stops output path cannot emit a row without raising. -/
theorem avl_speed_column_holds_name_string :
    ((readAVLCSV [c8Row1] ["T1"] none none).lookup "T1").map
      (fun l => l.map avlOutSpeedField) = some ["12.5"] := by
  rfl
